import Mathlib

/-!
Verification of the PVC (premature ventricular contraction) detection core of the
Polar-H10 ECG arrhythmia classifier.

The TypeScript sources `src/utils/burden.ts`, `src/utils/temporalBurden.ts` and
`src/utils/PVCDetector.ts` are embedded shallowly below.  JavaScript numbers are
modelled as rationals (`ℚ`); array indices and counts as naturals.  `Math.sqrt`
is irrational-valued, so every detector operation is parameterised by an abstract
square-root oracle `sqrtq : ℚ → ℚ`; every theorem proved here holds for all
choices of that oracle, hence in particular for real square root.
-/

namespace PolarECG

/-- JavaScript `arr.slice(s, e)` for `0 ≤ s ≤ e` (clipping at the array length). -/
def jsSlice {α : Type} (l : List α) (s e : ℕ) : List α :=
  (l.drop s).take (e - s)

/-- JavaScript `arr.slice(-n)`: the last `min n arr.length` elements. -/
def jsSliceLast {α : Type} (l : List α) (n : ℕ) : List α :=
  l.drop (l.length - n)

/-- JavaScript `Math.round`: round half toward positive infinity. -/
def jsRound (x : ℚ) : ℤ :=
  ⌊x + 1 / 2⌋

/-- Mean of a list of rationals, as `reduce((a,b)=>a+b,0)/length` computes it
(denominator `0` yields `0` in `ℚ`, a branch no embedded caller reaches). -/
def listMean (l : List ℚ) : ℚ :=
  l.sum / (l.length : ℚ)

/- ### `src/utils/burden.ts` -/

/-- Clinical burden category: `'low' | 'moderate' | 'high'`. -/
inductive BurdenCategory where
  | low
  | moderate
  | high
deriving DecidableEq, Repr

/-- The `BurdenStats` record from `burden.ts`. -/
structure BurdenStats where
  totalBeats : ℕ
  normalBeats : ℤ
  pvcBeats : ℕ
  burden : ℚ
  burdenCategory : BurdenCategory
deriving DecidableEq, Repr

/-- The `BurdenCalculator.categorizeBurden`: `<5` low, `<20` moderate, else high. -/
def categorizeBurden (burden : ℚ) : BurdenCategory :=
  if burden < 5 then .low
  else if burden < 20 then .moderate
  else .high

/-- The `BurdenCalculator.calculateBurden`.  The category is computed from the raw
(unrounded) percentage, the reported `burden` field from the rounded one. -/
def calculateBurden (totalBeats pvcCount : ℕ) : BurdenStats :=
  let burden : ℚ := if totalBeats > 0 then ((pvcCount : ℚ) / (totalBeats : ℚ)) * 100 else 0
  { totalBeats := totalBeats
    normalBeats := max 0 ((totalBeats : ℤ) - (pvcCount : ℤ))
    pvcBeats := pvcCount
    burden := (jsRound (burden * 10) : ℚ) / 10
    burdenCategory := categorizeBurden burden }

/- ### `src/utils/temporalBurden.ts` -/

/-- The `TemporalBurdenCalculator.calculateConfidence`: stepwise confidence in the
sliding-window beat count. -/
def calculateConfidence (totalBeats : ℕ) : ℚ :=
  if totalBeats ≥ 200 then 0.9
  else if totalBeats ≥ 100 then 0.7
  else if totalBeats ≥ 50 then 0.5
  else if totalBeats ≥ 20 then 0.3
  else 0.1

/- ### `src/utils/PVCDetector.ts` — data model -/

/-- The `PVCEvent.detectionPathway`: `'high-amplitude' | 'wide-qrs' | 'premature-morph'`. -/
inductive Pathway where
  | highAmplitude
  | wideQrs
  | prematureMorph
deriving DecidableEq, Repr

/-- Peak polarity used by `isValidPeak` (`'positive' | 'negative'`). -/
inductive Direction where
  | positive
  | negative
deriving DecidableEq, Repr

/-- The `PVCEvent` record. -/
structure PVCEvent where
  timestamp : ℚ
  currentRR : ℚ
  expectedRR : ℚ
  percentagePremature : ℤ
  qrsWidth : ℚ
  confidence : ℚ
  morphologyScore : ℚ
  detectionPathway : Pathway
  amplitude : ℚ
deriving DecidableEq, Repr

/-- A candidate peak as built inside `detectBeats`
(`{ time, index, amplitude }`). -/
structure Peak where
  time : ℚ
  index : ℕ
  amplitude : ℚ
deriving DecidableEq, Repr

/-- Result of `analyzeBeat`. -/
structure Analysis where
  isPVC : Bool
  currentRR : ℚ
  expectedRR : ℚ
  percentagePremature : ℤ
  confidence : ℚ
  morphologyScore : ℚ
  pathway : Pathway
deriving DecidableEq, Repr

/-- The `PVCDetectionResult` record. -/
structure PVCDetectionResult where
  pvcCount : ℕ
  totalBeats : ℕ
  detectedBeats : ℕ
  heartRate : ℤ
  isPVC : Bool
  pvcEvents : List PVCEvent
  timeSpanMs : ℚ
  signalQuality : ℚ
deriving DecidableEq, Repr

/-- The mutable fields of class `ImprovedPVCDetector`, plus the constructor
parameter `samplingRate`. -/
structure DetectorState where
  samplingRate : ℚ
  ecgBuffer : List ℚ
  timeBuffer : List ℚ
  rPeaks : List ℚ
  rPeakAmplitudes : List ℚ
  qrsWidths : List ℚ
  normalTemplates : List (List ℚ)
  rrHistory : List ℚ
  pvcCount : ℕ
  pvcEvents : List PVCEvent
  startTime : ℚ
  totalDetectedBeats : ℕ
deriving DecidableEq, Repr

/-- A freshly constructed `ImprovedPVCDetector(samplingRate)`; `t0` models the
`Date.now()` value assigned to `startTime` in the constructor. -/
def initState (samplingRate t0 : ℚ) : DetectorState :=
  { samplingRate := samplingRate
    ecgBuffer := []
    timeBuffer := []
    rPeaks := []
    rPeakAmplitudes := []
    qrsWidths := []
    normalTemplates := []
    rrHistory := []
    pvcCount := 0
    pvcEvents := []
    startTime := t0
    totalDetectedBeats := 0 }

/- ### `src/utils/PVCDetector.ts` — methods -/

/-- The `isValidPeak`: at most one sample in the `±5` window (excluding the peak,
upper end exclusive as in the JS loop) may dominate the peak sample. -/
def isValidPeak (data : List ℚ) (index : ℕ) (direction : Direction) : Prop :=
  let windowSize := 5
  let start := index - windowSize
  let stop := min data.length (index + windowSize)
  let invalidCount :=
    ((List.range' start (stop - start)).filter (fun i =>
      decide (i ≠ index) &&
      (match direction with
       | .positive => decide (data.getD i 0 ≥ data.getD index 0)
       | .negative => decide (data.getD i 0 ≤ data.getD index 0)))).length
  invalidCount ≤ 1

instance (data : List ℚ) (index : ℕ) (direction : Direction) :
    Decidable (isValidPeak data index direction) := by
  unfold isValidPeak
  infer_instance

/-- The `calculateLocalBaseline`: mean amplitude over two flanking windows. -/
def calculateLocalBaseline (data : List ℚ) (peakIndex : ℕ) : ℚ :=
  let windowSize := 20
  let beforeStart := peakIndex - windowSize * 2
  let beforeEnd := peakIndex - windowSize
  let afterStart := min data.length (peakIndex + windowSize)
  let afterEnd := min data.length (peakIndex + windowSize * 2)
  let allValues := jsSlice data beforeStart beforeEnd ++ jsSlice data afterStart afterEnd
  if allValues.length > 0 then listMean allValues else 0

/-- The `calculateQRSWidth`: search backward/forward from the peak for the first
sample within 10% of the peak-to-baseline deviation; onset/offset default to
the peak index itself when no crossing is found. -/
def calculateQRSWidth (samplingRate : ℚ) (data : List ℚ) (peakIndex : ℕ) : ℚ :=
  let searchWindow := (⌊samplingRate * 0.08⌋).toNat
  let start := peakIndex - searchWindow
  let stop := min data.length (peakIndex + searchWindow)
  let baseline := calculateLocalBaseline data peakIndex
  let threshold := |data.getD peakIndex 0 - baseline| * 0.1
  -- indices peakIndex-1, peakIndex-2, ..., start (the JS backward loop)
  let onset := (((List.range (peakIndex - start)).map (fun k => peakIndex - 1 - k)).find?
      (fun i => decide (|data.getD i 0 - baseline| < threshold))).getD peakIndex
  -- indices peakIndex+1, ..., stop-1 (the JS forward loop)
  let offset := ((List.range' (peakIndex + 1) (stop - (peakIndex + 1))).find?
      (fun i => decide (|data.getD i 0 - baseline| < threshold))).getD peakIndex
  (((offset : ℚ) - (onset : ℚ)) / samplingRate) * 1000

/-- The `calculateCorrelation`: Pearson correlation over the common prefix, `0` when
fewer than 10 overlapping samples or a zero denominator.  `sqrtq` abstracts
`Math.sqrt`. -/
def calculateCorrelation (sqrtq : ℚ → ℚ) (beat1 beat2 : List ℚ) : ℚ :=
  let minLength := min beat1.length beat2.length
  if minLength < 10 then 0
  else
    let b1 := beat1.take minLength
    let b2 := beat2.take minLength
    let mean1 := listMean b1
    let mean2 := listMean b2
    let numerator := ((b1.zip b2).map (fun p => (p.1 - mean1) * (p.2 - mean2))).sum
    let sum1 := (b1.map (fun x => (x - mean1) * (x - mean1))).sum
    let sum2 := (b2.map (fun x => (x - mean2) * (x - mean2))).sum
    let denominator := sqrtq (sum1 * sum2)
    if denominator = 0 then 0 else numerator / denominator

/-- The `calculateSimpleMorphology`: dissimilarity `max 0 (1 - maxCorrelation)` of
the normalized beat segment against the last 10 stored templates.  In JS an
empty segment gives `maxAmp = -Infinity` (so the `maxAmp === 0` guard does not
fire and the normalized beat is empty); `(…).max? = some 0` captures exactly the
`maxAmp === 0` case. -/
def calculateSimpleMorphology (sqrtq : ℚ → ℚ) (normalTemplates : List (List ℚ))
    (data : List ℚ) (peakIndex : ℕ) : ℚ :=
  let beatWindow := 60
  let currentBeat := jsSlice data (peakIndex - beatWindow) (peakIndex + beatWindow)
  let maxAmp? := (currentBeat.map (fun x => |x|)).max?
  if maxAmp? = some 0 then 0
  else
    let maxAmp := maxAmp?.getD 0
    let normalizedBeat := currentBeat.map (fun x => x / maxAmp)
    let maxCorrelation := (jsSliceLast normalTemplates 10).foldl
      (fun acc template => max acc (calculateCorrelation sqrtq normalizedBeat template)) 0
    max 0 (1 - maxCorrelation)

/-- The `storeNormalTemplate` as a pure function on the template bank: append the
normalized segment, then truncate to the most recent 12 templates. -/
def storeNormalTemplate (normalTemplates : List (List ℚ)) (data : List ℚ)
    (peakIndex : ℕ) : List (List ℚ) :=
  let beatWindow := 60
  let beat := jsSlice data (peakIndex - beatWindow) (peakIndex + beatWindow)
  let maxAmp? := (beat.map (fun x => |x|)).max?
  if maxAmp? = some 0 then normalTemplates
  else
    let maxAmp := maxAmp?.getD 0
    let normalizedBeat := beat.map (fun x => x / maxAmp)
    let ts := normalTemplates ++ [normalizedBeat]
    if ts.length > 12 then jsSliceLast ts 12 else ts

/-- The `updateRRHistory`: recompute all consecutive peak-time differences, then
truncate to the most recent 30. -/
def updateRRHistory (st : DetectorState) : DetectorState :=
  if st.rPeaks.length < 2 then st
  else
    let newRRs := List.zipWith (fun a b => a - b) st.rPeaks.tail st.rPeaks
    { st with rrHistory := if newRRs.length > 30 then jsSliceLast newRRs 30 else newRRs }

/-- The `cleanOldData`: drop peaks (and their parallel amplitude/width entries)
older than the cutoff — but, as in the source, only when the kept indices are
non-empty and do not start at 0 — and filter old PVC events. -/
def cleanOldData (st : DetectorState) (cutoffTime : ℚ) : DetectorState :=
  let validIndices := (List.range st.rPeaks.length).filter
    (fun i => decide (st.rPeaks.getD i 0 ≥ cutoffTime))
  let st' :=
    match validIndices with
    | [] => st
    | i0 :: _ =>
      if i0 > 0 then
        { st with
          rPeaks := validIndices.map (fun i => st.rPeaks.getD i 0)
          rPeakAmplitudes := validIndices.map (fun i => st.rPeakAmplitudes.getD i 0)
          qrsWidths := validIndices.map (fun i => st.qrsWidths.getD i 0) }
      else st
  { st' with pvcEvents := st'.pvcEvents.filter (fun e => decide (e.timestamp ≥ cutoffTime)) }

/-- The decision section of `analyzeBeat` (lines 190–243), as a function of the
already-computed current RR, baseline (median) RR, amplitude, QRS width and
morphology dissimilarity. -/
def analyzeBeatCore (amplitude currentRR expectedRR qrsWidth morphologyScore : ℚ) : Analysis :=
  let isHighAmplitude := amplitude > 600
  let isVeryHighAmplitude := amplitude > 800
  let isWide := qrsWidth > 120
  let isPremature := currentRR < expectedRR * 0.75
  let isVeryPremature := currentRR < expectedRR * 0.65
  let hasAbnormalMorphology := morphologyScore > 0.4
  let percentagePremature := jsRound ((1 - currentRR / expectedRR) * 100)
  if isVeryHighAmplitude ∨ (isHighAmplitude ∧ isPremature) then
    { isPVC := true, currentRR := currentRR, expectedRR := expectedRR
      percentagePremature := percentagePremature, confidence := 0.9
      morphologyScore := morphologyScore, pathway := .highAmplitude }
  else if isWide ∧ isPremature then
    { isPVC := true, currentRR := currentRR, expectedRR := expectedRR
      percentagePremature := percentagePremature, confidence := 0.8
      morphologyScore := morphologyScore, pathway := .wideQrs }
  else if isVeryPremature ∧ hasAbnormalMorphology then
    { isPVC := true, currentRR := currentRR, expectedRR := expectedRR
      percentagePremature := percentagePremature, confidence := 0.7
      morphologyScore := morphologyScore, pathway := .prematureMorph }
  else
    { isPVC := false, currentRR := currentRR, expectedRR := expectedRR
      percentagePremature := percentagePremature, confidence := 0
      morphologyScore := morphologyScore, pathway := .highAmplitude }

/-- The `analyzeBeat`: current RR is the last stored interval; the baseline is the
median of the last 20 intervals (ascending numeric sort, element at
`⌊length/2⌋`); morphology is scored against the template bank. -/
def analyzeBeat (sqrtq : ℚ → ℚ) (st : DetectorState) (peak : Peak) (data : List ℚ)
    (qrsWidth : ℚ) : Analysis :=
  let currentRR := st.rrHistory.getLastD 0
  let recentRRs := jsSliceLast st.rrHistory 20
  let sortedRRs := recentRRs.insertionSort (· ≤ ·)
  let medianRR := sortedRRs.getD (sortedRRs.length / 2) 0
  let morphologyScore := calculateSimpleMorphology sqrtq st.normalTemplates data peak.index
  analyzeBeatCore peak.amplitude currentRR medianRR qrsWidth morphologyScore

/-- Lines 136–145 of `processPeak`: record the peak (times, amplitudes, beat
count, QRS width) and prune data older than 120 s.  Returns the updated state
and the computed QRS width. -/
def recordPeak (st : DetectorState) (peak : Peak) (data : List ℚ) : DetectorState × ℚ :=
  let qrsWidth := calculateQRSWidth st.samplingRate data peak.index
  let st1 := { st with
    rPeaks := st.rPeaks ++ [peak.time]
    rPeakAmplitudes := st.rPeakAmplitudes ++ [peak.amplitude]
    totalDetectedBeats := st.totalDetectedBeats + 1
    qrsWidths := st.qrsWidths ++ [qrsWidth] }
  (cleanOldData st1 (peak.time - 120000), qrsWidth)

/-- The `processPeak`, additionally reporting whether a classification was attempted
(`some analysis`) or the early `rPeaks.length < 8` return was taken (`none`). -/
def processPeakAux (sqrtq : ℚ → ℚ) (st : DetectorState) (peak : Peak)
    (data : List ℚ) : DetectorState × Option Analysis :=
  let r := recordPeak st peak data
  let st3 := r.1
  let qrsWidth := r.2
  if st3.rPeaks.length < 8 then (st3, none)
  else
    let st4 := updateRRHistory st3
    let analysis := analyzeBeat sqrtq st4 peak data qrsWidth
    if analysis.isPVC then
      ({ st4 with
          pvcCount := st4.pvcCount + 1
          pvcEvents := st4.pvcEvents ++ [{
            timestamp := peak.time
            currentRR := analysis.currentRR
            expectedRR := analysis.expectedRR
            percentagePremature := analysis.percentagePremature
            qrsWidth := qrsWidth
            confidence := analysis.confidence
            morphologyScore := analysis.morphologyScore
            detectionPathway := analysis.pathway
            amplitude := peak.amplitude }] }, some analysis)
    else
      if analysis.confidence < 0.3 then
        ({ st4 with normalTemplates := storeNormalTemplate st4.normalTemplates data peak.index },
          some analysis)
      else (st4, some analysis)

/-- The `processPeak` (state part only). -/
def processPeak (sqrtq : ℚ → ℚ) (st : DetectorState) (peak : Peak)
    (data : List ℚ) : DetectorState :=
  (processPeakAux sqrtq st peak data).1

/-- The `detectBeats`: adaptive-threshold extrema scan over the current window,
followed by `processPeak` on each accepted candidate.  `lastPeakTime` is read
from the peak ring once (the ring does not change during the scan loop). -/
def detectBeats (sqrtq : ℚ → ℚ) (st : DetectorState) : DetectorState :=
  if st.ecgBuffer.length < 130 then st
  else
    let data := st.ecgBuffer
    let times := st.timeBuffer
    let mean := listMean data
    let std := sqrtq ((data.map (fun b => (b - mean) * (b - mean))).sum / (data.length : ℚ))
    let upperThreshold := mean + 1.4 * std
    let lowerThreshold := mean - 1.4 * std
    let minDistance := (⌊st.samplingRate * 0.3⌋).toNat
    let lastPeakTime := if st.rPeaks.length > 0 then st.rPeaks.getLastD 0 else 0
    let candidates := List.range' minDistance (data.length - minDistance - minDistance)
    let newPeaks := candidates.filterMap (fun i =>
      let peakCandidate : Option Peak :=
        if data.getD i 0 > upperThreshold ∧ data.getD i 0 > data.getD (i - 1) 0 ∧
            data.getD i 0 > data.getD (i + 1) 0 ∧ isValidPeak data i .positive then
          some { time := times.getD i 0, index := i, amplitude := data.getD i 0 }
        else if data.getD i 0 < lowerThreshold ∧ data.getD i 0 < data.getD (i - 1) 0 ∧
            data.getD i 0 < data.getD (i + 1) 0 ∧ isValidPeak data i .negative then
          some { time := times.getD i 0, index := i, amplitude := |data.getD i 0| }
        else none
      match peakCandidate with
      | some p => if p.time - lastPeakTime > 300 then some p else none
      | none => none)
    newPeaks.foldl (fun s p => processPeak sqrtq s p data) st

/-- The `calculateSignalQuality`: SNR heuristic over the last 130 samples.  (In `ℚ`,
division by zero yields 0 where JS would produce `Infinity`/`NaN`; no claim
depends on this field.) -/
def calculateSignalQuality (sqrtq : ℚ → ℚ) (st : DetectorState) : ℚ :=
  if st.ecgBuffer.length < 130 then 0
  else
    let data := jsSliceLast st.ecgBuffer 130
    let mean := listMean data
    let variance := (data.map (fun v => (v - mean) * (v - mean))).sum / (data.length : ℚ)
    let snr := |mean| / sqrtq variance
    min 1 (snr / 10)

/-- The `getResult`: the per-update `PVCDetectionResult`; `isPVC` is the literal
`false` of the source. -/
def getResult (sqrtq : ℚ → ℚ) (st : DetectorState) : PVCDetectionResult :=
  let heartRate : ℤ :=
    if st.rrHistory.length ≥ 3 then
      let recentRRs := jsSliceLast st.rrHistory 5
      let avgInterval := listMean recentRRs
      let hr := jsRound (60000 / avgInterval)
      if hr < 40 ∨ hr > 200 then 0 else hr
    else 0
  let currentTime := if st.timeBuffer.length > 0 then st.timeBuffer.getLastD 0 else st.startTime
  { pvcCount := st.pvcCount
    totalBeats := st.totalDetectedBeats
    detectedBeats := st.rPeaks.length
    heartRate := heartRate
    isPVC := false
    pvcEvents := st.pvcEvents
    timeSpanMs := currentTime - st.startTime
    signalQuality := calculateSignalQuality sqrtq st }

/-- The `processECGSample`, split into its state transition plus a flag recording
whether the `ecgBuffer.length % 10 === 0` branch (a `detectBeats` pass) ran. -/
def processECGSampleAux (sqrtq : ℚ → ℚ) (st : DetectorState) (amplitude timestamp : ℚ) :
    DetectorState × Bool :=
  let st0 := if st.startTime = 0 then { st with startTime := timestamp } else st
  let st1 := { st0 with
    ecgBuffer := st0.ecgBuffer ++ [amplitude]
    timeBuffer := st0.timeBuffer ++ [timestamp] }
  let st2 :=
    if st1.ecgBuffer.length > 390 then
      { st1 with
        ecgBuffer := jsSliceLast st1.ecgBuffer 390
        timeBuffer := jsSliceLast st1.timeBuffer 390 }
    else st1
  if st2.ecgBuffer.length % 10 = 0 then (detectBeats sqrtq st2, true) else (st2, false)

/-- The `processECGSample`: state transition plus the returned `PVCDetectionResult`. -/
def processECGSample (sqrtq : ℚ → ℚ) (st : DetectorState) (amplitude timestamp : ℚ) :
    DetectorState × PVCDetectionResult :=
  let p := processECGSampleAux sqrtq st amplitude timestamp
  (p.1, getResult sqrtq p.1)

/-- Feed a stream of `(amplitude, timestamp)` samples one at a time. -/
def runSamples (sqrtq : ℚ → ℚ) (st : DetectorState) (samples : List (ℚ × ℚ)) : DetectorState :=
  samples.foldl (fun s p => (processECGSampleAux sqrtq s p.1 p.2).1) st

/-- The raw (unrounded) burden percentage of `calculateBurden`, named so that
theorems can refer to it. -/
def rawBurden (totalBeats pvcCount : ℕ) : ℚ :=
  if totalBeats > 0 then ((pvcCount : ℚ) / (totalBeats : ℚ)) * 100 else 0

/-- A detector state holding five prior peaks (one second apart), used to probe
the minimum-history rule of `processPeak`. -/
def fivePeakState : DetectorState :=
  { initState 130 0 with
    rPeaks := [0, 1000, 2000, 3000, 4000]
    rPeakAmplitudes := [100, 100, 100, 100, 100]
    qrsWidths := [0, 0, 0, 0, 0]
    totalDetectedBeats := 5 }

/- ### Theorems -/

lemma jsSliceLast_len {α : Type} (l : List α) (n : ℕ) :
    (jsSliceLast l n).length = l.length - (l.length - n) := by
  simp [jsSliceLast]

/-- C2 (counterexample): at `totalBeats = 5`, `pvcCount = 1` the burden is
exactly 20%, yet the code reports category `high`, where the claim's
"moderate when between 5 and 20 percent, high above 20 percent" puts 20% in
`moderate`. -/
theorem calculateBurden_twenty_percent_high :
    (calculateBurden 5 1).burden = 20 ∧
    (calculateBurden 5 1).burdenCategory = BurdenCategory.high := by
  constructor <;> norm_num [calculateBurden, jsRound, categorizeBurden]

lemma categorizeBurden_low_iff (b : ℚ) : categorizeBurden b = .low ↔ b < 5 := by
  unfold categorizeBurden
  split_ifs with h1 h2 <;> simp_all

lemma categorizeBurden_moderate_iff (b : ℚ) :
    categorizeBurden b = .moderate ↔ 5 ≤ b ∧ b < 20 := by
  unfold categorizeBurden
  split_ifs with h1 h2 <;> simp_all

lemma categorizeBurden_high_iff (b : ℚ) : categorizeBurden b = .high ↔ 20 ≤ b := by
  unfold categorizeBurden
  split_ifs with h1 h2 <;> simp_all
  linarith

/-- C2 (amended): `calculateBurden` returns `100·pvcCount/totalBeats` (0 when
`totalBeats = 0`) rounded half-up to one decimal; the category, decided on the
unrounded value, is `low` below 5%, `moderate` from 5% up to but excluding 20%,
and `high` at 20% or above; `(100, 7)` gives burden `7.0` and `moderate`, and
`totalBeats = 0` gives burden `0.0` and `low` with no division error. -/
theorem calculateBurden_spec (t p : ℕ) :
    (calculateBurden t p).burden = (jsRound (rawBurden t p * 10) : ℚ) / 10 ∧
    ((calculateBurden t p).burdenCategory = .low ↔ rawBurden t p < 5) ∧
    ((calculateBurden t p).burdenCategory = .moderate ↔
      5 ≤ rawBurden t p ∧ rawBurden t p < 20) ∧
    ((calculateBurden t p).burdenCategory = .high ↔ 20 ≤ rawBurden t p) ∧
    (calculateBurden 100 7).burden = 7 ∧
    (calculateBurden 100 7).burdenCategory = .moderate ∧
    (calculateBurden 0 p).burden = 0 ∧
    (calculateBurden 0 p).burdenCategory = .low := by
  have hcat : (calculateBurden t p).burdenCategory = categorizeBurden (rawBurden t p) := rfl
  refine ⟨rfl, ?_, ?_, ?_,
    by norm_num [calculateBurden, jsRound, categorizeBurden],
    by norm_num [calculateBurden, jsRound, categorizeBurden], ?_, ?_⟩
  · rw [hcat, categorizeBurden_low_iff]
  · rw [hcat, categorizeBurden_moderate_iff]
  · rw [hcat, categorizeBurden_high_iff]
  · norm_num [calculateBurden, jsRound]
  · norm_num [calculateBurden, categorizeBurden]

/-- C3 (counterexample): with `pvcCount = 2 > totalBeats = 1` the reported
burden is 200%, outside `[0, 100]` — no clamping exists in the code. -/
theorem calculateBurden_can_exceed_100 :
    (calculateBurden 1 2).burden = 200 ∧ ¬((calculateBurden 1 2).burden ≤ 100) := by
  constructor <;> norm_num [calculateBurden, jsRound, categorizeBurden]

/-- C3 (amended): the burden percentage returned by `calculateBurden` is never
negative (and always defined), and it lies in `[0, 100]` whenever
`pvcCount ≤ totalBeats`; for `pvcCount > totalBeats` it can exceed 100. -/
theorem calculateBurden_range (t p : ℕ) :
    0 ≤ (calculateBurden t p).burden ∧
    (p ≤ t → (calculateBurden t p).burden ≤ 100) := by
  have hb : (calculateBurden t p).burden = (jsRound (rawBurden t p * 10) : ℚ) / 10 := rfl
  have hraw0 : 0 ≤ rawBurden t p := by
    unfold rawBurden
    split_ifs with h
    · positivity
    · exact le_refl 0
  constructor
  · rw [hb]
    apply div_nonneg _ (by norm_num)
    have h0 : (0 : ℤ) ≤ jsRound (rawBurden t p * 10) := by
      unfold jsRound
      refine Int.le_floor.mpr ?_
      push_cast
      linarith
    exact_mod_cast h0
  · intro hpt
    rw [hb]
    have hraw100 : rawBurden t p ≤ 100 := by
      unfold rawBurden
      split_ifs with h
      · have ht : (0 : ℚ) < (t : ℚ) := by exact_mod_cast h
        have hle : (p : ℚ) ≤ (t : ℚ) := by exact_mod_cast hpt
        have hdiv : (p : ℚ) / (t : ℚ) ≤ 1 := (div_le_one ht).mpr hle
        nlinarith
      · norm_num
    have hfl : jsRound (rawBurden t p * 10) < 1001 := by
      unfold jsRound
      refine Int.floor_lt.mpr ?_
      push_cast
      linarith
    have hx : ((jsRound (rawBurden t p * 10)) : ℚ) ≤ 1000 := by
      have : jsRound (rawBurden t p * 10) ≤ 1000 := by omega
      exact_mod_cast this
    linarith

/-- C3 (witness): a concrete instantiation of `calculateBurden_range`. -/
theorem calculateBurden_range_witness :
    0 ≤ (calculateBurden 10 3).burden ∧ (calculateBurden 10 3).burden ≤ 100 :=
  ⟨(calculateBurden_range 10 3).1, (calculateBurden_range 10 3).2 (by norm_num)⟩

/-- C5 (counterexample): with an empty template bank, a concrete (non-flat)
beat scores dissimilarity 1, not the claimed 0: no template yields a maximal
correlation of 0, so `1 - maxCorrelation = 1`. -/
theorem emptyBank_morphology_one :
    calculateSimpleMorphology (fun x => x) [] (List.replicate 10 (1 : ℚ)) 5 = 1 ∧
    calculateSimpleMorphology (fun x => x) [] (List.replicate 10 (1 : ℚ)) 5 ≠ 0 := by
  constructor <;> norm_num [calculateSimpleMorphology, jsSlice, jsSliceLast]

/-- C5 (amended): when the normal-template bank is empty,
`calculateSimpleMorphology` returns dissimilarity 1 (maximally dissimilar) —
except that it returns 0 when the extracted beat segment's maximum absolute
amplitude is exactly 0 — and, being a total function, never raises a fault. -/
theorem emptyBank_morphology_value (sqrtq : ℚ → ℚ) (data : List ℚ) (peakIndex : ℕ) :
    calculateSimpleMorphology sqrtq [] data peakIndex =
      if ((jsSlice data (peakIndex - 60) (peakIndex + 60)).map (fun x => |x|)).max? = some 0
      then 0 else 1 := by
  unfold calculateSimpleMorphology
  split_ifs with h <;> simp [jsSliceLast] <;> exact h

/-- C7: the sliding-window burden confidence takes exactly the step values
0.9 (≥200 beats), 0.7 (≥100), 0.5 (≥50), 0.3 (≥20) and 0.1 otherwise, and is
monotonically non-decreasing in the beat count. -/
theorem calculateConfidence_steps_monotone :
    (∀ n : ℕ,
      (200 ≤ n → calculateConfidence n = 0.9) ∧
      (100 ≤ n → n < 200 → calculateConfidence n = 0.7) ∧
      (50 ≤ n → n < 100 → calculateConfidence n = 0.5) ∧
      (20 ≤ n → n < 50 → calculateConfidence n = 0.3) ∧
      (n < 20 → calculateConfidence n = 0.1)) ∧
    (∀ a b : ℕ, a ≤ b → calculateConfidence a ≤ calculateConfidence b) := by
  constructor
  · intro n
    refine ⟨?_, ?_, ?_, ?_, ?_⟩ <;> intros <;> unfold calculateConfidence <;>
      split_ifs <;> first | rfl | omega
  · intro a b hab
    unfold calculateConfidence
    split_ifs <;> first | omega | (norm_num; done) | (exfalso; omega)

/-- C7 (witness): concrete step value and a concrete monotonicity instance. -/
theorem calculateConfidence_steps_monotone_witness :
    calculateConfidence 250 = 0.9 ∧ calculateConfidence 10 ≤ calculateConfidence 250 :=
  ⟨(calculateConfidence_steps_monotone.1 250).1 (by norm_num),
   calculateConfidence_steps_monotone.2 10 250 (by norm_num)⟩

/-- C1: the beat classifier evaluates exactly three pathways in fixed
precedence, first match winning: (1) amplitude > 800, or amplitude > 600 and
currentRR < 0.75·baseline → PVC, pathway high-amplitude, confidence 0.9;
(2) else QRS width > 120 ms and currentRR < 0.75·baseline → PVC, wide-qrs,
confidence 0.8; (3) else currentRR < 0.65·baseline and morphology
dissimilarity > 0.4 → PVC, premature-morph, confidence 0.7; otherwise the beat
is labeled normal with confidence 0. -/
theorem analyzeBeat_three_pathways (amplitude currentRR expectedRR qrsWidth morphologyScore : ℚ) :
    (amplitude > 800 ∨ (amplitude > 600 ∧ currentRR < expectedRR * 0.75) →
      (analyzeBeatCore amplitude currentRR expectedRR qrsWidth morphologyScore).isPVC = true ∧
      (analyzeBeatCore amplitude currentRR expectedRR qrsWidth morphologyScore).pathway =
        .highAmplitude ∧
      (analyzeBeatCore amplitude currentRR expectedRR qrsWidth morphologyScore).confidence = 0.9) ∧
    (¬(amplitude > 800 ∨ (amplitude > 600 ∧ currentRR < expectedRR * 0.75)) →
      qrsWidth > 120 ∧ currentRR < expectedRR * 0.75 →
      (analyzeBeatCore amplitude currentRR expectedRR qrsWidth morphologyScore).isPVC = true ∧
      (analyzeBeatCore amplitude currentRR expectedRR qrsWidth morphologyScore).pathway =
        .wideQrs ∧
      (analyzeBeatCore amplitude currentRR expectedRR qrsWidth morphologyScore).confidence = 0.8) ∧
    (¬(amplitude > 800 ∨ (amplitude > 600 ∧ currentRR < expectedRR * 0.75)) →
      ¬(qrsWidth > 120 ∧ currentRR < expectedRR * 0.75) →
      currentRR < expectedRR * 0.65 ∧ morphologyScore > 0.4 →
      (analyzeBeatCore amplitude currentRR expectedRR qrsWidth morphologyScore).isPVC = true ∧
      (analyzeBeatCore amplitude currentRR expectedRR qrsWidth morphologyScore).pathway =
        .prematureMorph ∧
      (analyzeBeatCore amplitude currentRR expectedRR qrsWidth morphologyScore).confidence = 0.7) ∧
    (¬(amplitude > 800 ∨ (amplitude > 600 ∧ currentRR < expectedRR * 0.75)) →
      ¬(qrsWidth > 120 ∧ currentRR < expectedRR * 0.75) →
      ¬(currentRR < expectedRR * 0.65 ∧ morphologyScore > 0.4) →
      (analyzeBeatCore amplitude currentRR expectedRR qrsWidth morphologyScore).isPVC = false ∧
      (analyzeBeatCore amplitude currentRR expectedRR qrsWidth morphologyScore).confidence = 0) := by
  simp only [analyzeBeatCore]
  refine ⟨?_, ?_, ?_, ?_⟩ <;> intros <;> split_ifs <;>
    first
      | exact ⟨rfl, rfl, rfl⟩
      | exact ⟨rfl, rfl⟩
      | tauto

/-- C1 (witness): a very-high-amplitude beat triggers the high-amplitude
pathway with confidence 0.9. -/
theorem analyzeBeat_three_pathways_witness :
    (analyzeBeatCore 900 500 600 80 0).isPVC = true ∧
    (analyzeBeatCore 900 500 600 80 0).pathway = .highAmplitude ∧
    (analyzeBeatCore 900 500 600 80 0).confidence = 0.9 :=
  (analyzeBeat_three_pathways 900 500 600 80 0).1 (Or.inl (by norm_num))

/-- C4 (counterexample): a peak arriving with 5 prior peaks in the ring is
recorded (the ring grows to 6) but no classification is attempted, contrary to
the claimed minimum of 5 prior peaks. -/
theorem processPeak_five_prior_unclassified :
    fivePeakState.rPeaks.length = 5 ∧
    (processPeakAux (fun x => x) fivePeakState ⟨5000, 100, 1⟩
      (List.replicate 200 (1 : ℚ))).2 = none ∧
    (processPeakAux (fun x => x) fivePeakState ⟨5000, 100, 1⟩
      (List.replicate 200 (1 : ℚ))).1.rPeaks.length = 6 := by
  refine ⟨rfl, ?_, ?_⟩ <;>
    norm_num [processPeakAux, recordPeak, cleanOldData, fivePeakState, initState,
      List.range_succ, List.getD, decide_eq_true_eq]

/-- C4 (amended): a classification is attempted if and only if, after the new
peak is recorded and peaks older than 120 s are pruned, the peak ring holds at
least 8 peaks — that is, at least 7 prior peaks besides the new one; earlier
peaks are recorded but never classified. -/
theorem processPeak_min_history_iff (sqrtq : ℚ → ℚ) (st : DetectorState) (peak : Peak)
    (data : List ℚ) :
    ((processPeakAux sqrtq st peak data).2).isSome = true ↔
    8 ≤ (recordPeak st peak data).1.rPeaks.length := by
  simp only [processPeakAux]
  split_ifs with h1 h2 h3 <;> simp <;> omega

/-- C8: when no sample in the backward search window and none in the forward
search window comes within the onset threshold of the local baseline, onset and
offset both default to the peak index and `calculateQRSWidth` returns 0 ms. -/
theorem calculateQRSWidth_degenerate_zero (samplingRate : ℚ) (data : List ℚ) (peakIndex : ℕ)
    (hBack : ∀ i ∈ (List.range (peakIndex - (peakIndex - (⌊samplingRate * 0.08⌋).toNat))).map
        (fun k => peakIndex - 1 - k),
      ¬(|data.getD i 0 - calculateLocalBaseline data peakIndex| <
        |data.getD peakIndex 0 - calculateLocalBaseline data peakIndex| * 0.1))
    (hFwd : ∀ i ∈ List.range' (peakIndex + 1)
        (min data.length (peakIndex + (⌊samplingRate * 0.08⌋).toNat) - (peakIndex + 1)),
      ¬(|data.getD i 0 - calculateLocalBaseline data peakIndex| <
        |data.getD peakIndex 0 - calculateLocalBaseline data peakIndex| * 0.1)) :
    calculateQRSWidth samplingRate data peakIndex = 0 := by
  simp only [calculateQRSWidth]
  have hOn : (((List.range (peakIndex - (peakIndex - (⌊samplingRate * 0.08⌋).toNat))).map
      (fun k => peakIndex - 1 - k)).find?
      (fun i => decide (|data.getD i 0 - calculateLocalBaseline data peakIndex| <
        |data.getD peakIndex 0 - calculateLocalBaseline data peakIndex| * 0.1))) = none := by
    rw [List.find?_eq_none]
    intro i hi
    simpa using hBack i hi
  have hOff : ((List.range' (peakIndex + 1)
      (min data.length (peakIndex + (⌊samplingRate * 0.08⌋).toNat) - (peakIndex + 1))).find?
      (fun i => decide (|data.getD i 0 - calculateLocalBaseline data peakIndex| <
        |data.getD peakIndex 0 - calculateLocalBaseline data peakIndex| * 0.1))) = none := by
    rw [List.find?_eq_none]
    intro i hi
    simpa using hFwd i hi
  rw [hOn, hOff]
  simp

/-- C8 (witness): on a flat signal the deviation threshold is 0, no crossing is
ever strictly within it, and the width degenerates to 0 ms. -/
theorem calculateQRSWidth_degenerate_zero_witness :
    calculateQRSWidth 130 (List.replicate 50 (1 : ℚ)) 25 = 0 := by
  have hbase : calculateLocalBaseline (List.replicate 50 (1 : ℚ)) 25 = 1 := by
    norm_num [calculateLocalBaseline, jsSlice, listMean]
  have h25 : (List.replicate 50 (1 : ℚ)).getD 25 0 = 1 := by
    simp [List.getD]
  refine calculateQRSWidth_degenerate_zero 130 (List.replicate 50 (1 : ℚ)) 25 ?_ ?_ <;>
    intro i hi <;> rw [hbase, h25] <;> norm_num

lemma cleanOldData_rrHistory (st : DetectorState) (c : ℚ) :
    (cleanOldData st c).rrHistory = st.rrHistory := by
  simp only [cleanOldData]
  split
  · rfl
  · split_ifs <;> rfl

lemma cleanOldData_normalTemplates (st : DetectorState) (c : ℚ) :
    (cleanOldData st c).normalTemplates = st.normalTemplates := by
  simp only [cleanOldData]
  split
  · rfl
  · split_ifs <;> rfl

lemma cleanOldData_ecgBuffer (st : DetectorState) (c : ℚ) :
    (cleanOldData st c).ecgBuffer = st.ecgBuffer := by
  simp only [cleanOldData]
  split
  · rfl
  · split_ifs <;> rfl

lemma updateRRHistory_normalTemplates (st : DetectorState) :
    (updateRRHistory st).normalTemplates = st.normalTemplates := by
  unfold updateRRHistory
  split_ifs <;> rfl

lemma updateRRHistory_ecgBuffer (st : DetectorState) :
    (updateRRHistory st).ecgBuffer = st.ecgBuffer := by
  unfold updateRRHistory
  split_ifs <;> rfl

lemma updateRRHistory_rrHistory_le (st : DetectorState) (h : st.rrHistory.length ≤ 30) :
    (updateRRHistory st).rrHistory.length ≤ 30 := by
  simp only [updateRRHistory]
  split_ifs with h1 h2
  · exact h
  · simp [jsSliceLast_len]
    omega
  · simp only []
    omega

lemma recordPeak_rrHistory (st : DetectorState) (p : Peak) (d : List ℚ) :
    ((recordPeak st p d).1).rrHistory = st.rrHistory := by
  simp [recordPeak, cleanOldData_rrHistory]

lemma recordPeak_normalTemplates (st : DetectorState) (p : Peak) (d : List ℚ) :
    ((recordPeak st p d).1).normalTemplates = st.normalTemplates := by
  simp [recordPeak, cleanOldData_normalTemplates]

lemma recordPeak_ecgBuffer (st : DetectorState) (p : Peak) (d : List ℚ) :
    ((recordPeak st p d).1).ecgBuffer = st.ecgBuffer := by
  simp [recordPeak, cleanOldData_ecgBuffer]

lemma storeNormalTemplate_length_le (templates : List (List ℚ)) (data : List ℚ) (pi : ℕ)
    (h : templates.length ≤ 12) :
    (storeNormalTemplate templates data pi).length ≤ 12 := by
  simp only [storeNormalTemplate]
  split_ifs with h1 h2
  · exact h
  · simp [jsSliceLast_len]
    omega
  · simp only [List.length_append, List.length_singleton] at h2 ⊢
    omega

lemma processPeakAux_rrHistory_le (f : ℚ → ℚ) (st : DetectorState) (p : Peak) (d : List ℚ)
    (h : st.rrHistory.length ≤ 30) :
    ((processPeakAux f st p d).1).rrHistory.length ≤ 30 := by
  simp only [processPeakAux]
  split_ifs with h1 h2 h3
  · simpa [recordPeak_rrHistory] using h
  · simpa using updateRRHistory_rrHistory_le (recordPeak st p d).1
      (by simpa [recordPeak_rrHistory] using h)
  · simpa using updateRRHistory_rrHistory_le (recordPeak st p d).1
      (by simpa [recordPeak_rrHistory] using h)
  · simpa using updateRRHistory_rrHistory_le (recordPeak st p d).1
      (by simpa [recordPeak_rrHistory] using h)

lemma processPeakAux_templates_le (f : ℚ → ℚ) (st : DetectorState) (p : Peak) (d : List ℚ)
    (h : st.normalTemplates.length ≤ 12) :
    ((processPeakAux f st p d).1).normalTemplates.length ≤ 12 := by
  simp only [processPeakAux]
  split_ifs with h1 h2 h3
  · simpa [recordPeak_normalTemplates] using h
  · simpa [updateRRHistory_normalTemplates, recordPeak_normalTemplates] using h
  · simpa using storeNormalTemplate_length_le _ d p.index
      (by simpa [updateRRHistory_normalTemplates, recordPeak_normalTemplates] using h)
  · simpa [updateRRHistory_normalTemplates, recordPeak_normalTemplates] using h

lemma processPeakAux_ecgBuffer (f : ℚ → ℚ) (st : DetectorState) (p : Peak) (d : List ℚ) :
    ((processPeakAux f st p d).1).ecgBuffer = st.ecgBuffer := by
  simp only [processPeakAux]
  split_ifs with h1 h2 h3 <;>
    simp [updateRRHistory_ecgBuffer, recordPeak_ecgBuffer]

lemma foldl_processPeak_ecgBuffer (f : ℚ → ℚ) (d : List ℚ) (l : List Peak)
    (st : DetectorState) :
    (l.foldl (fun s p => processPeak f s p d) st).ecgBuffer = st.ecgBuffer := by
  induction l generalizing st with
  | nil => rfl
  | cons p t ih =>
    rw [List.foldl_cons, ih]
    exact processPeakAux_ecgBuffer f st p d

lemma foldl_processPeak_bounds (f : ℚ → ℚ) (d : List ℚ) (l : List Peak)
    (st : DetectorState) (h30 : st.rrHistory.length ≤ 30)
    (h12 : st.normalTemplates.length ≤ 12) :
    (l.foldl (fun s p => processPeak f s p d) st).rrHistory.length ≤ 30 ∧
    (l.foldl (fun s p => processPeak f s p d) st).normalTemplates.length ≤ 12 := by
  induction l generalizing st with
  | nil => exact ⟨h30, h12⟩
  | cons p t ih =>
    rw [List.foldl_cons]
    exact ih _ (processPeakAux_rrHistory_le f st p d h30)
      (processPeakAux_templates_le f st p d h12)

lemma detectBeats_ecgBuffer (f : ℚ → ℚ) (st : DetectorState) :
    (detectBeats f st).ecgBuffer = st.ecgBuffer := by
  simp only [detectBeats]
  split_ifs <;> first | rfl | exact foldl_processPeak_ecgBuffer _ _ _ _

lemma detectBeats_bounds (f : ℚ → ℚ) (st : DetectorState)
    (h30 : st.rrHistory.length ≤ 30) (h12 : st.normalTemplates.length ≤ 12) :
    (detectBeats f st).rrHistory.length ≤ 30 ∧
    (detectBeats f st).normalTemplates.length ≤ 12 := by
  simp only [detectBeats]
  split_ifs <;>
    first
      | exact ⟨h30, h12⟩
      | exact foldl_processPeak_bounds _ _ _ _ h30 h12

set_option maxRecDepth 4000 in
lemma processECGSampleAux_ecgBuffer_length (f : ℚ → ℚ) (st : DetectorState)
    (a t : ℚ) :
    ((processECGSampleAux f st a t).1).ecgBuffer.length =
      min (st.ecgBuffer.length + 1) 390 := by
  simp only [processECGSampleAux]
  split_ifs with h1 h2 h3 <;>
    simp_all [detectBeats_ecgBuffer, jsSliceLast_len] <;> omega

set_option maxRecDepth 4000 in
lemma processECGSampleAux_bounds (f : ℚ → ℚ) (st : DetectorState) (a t : ℚ)
    (h30 : st.rrHistory.length ≤ 30) (h12 : st.normalTemplates.length ≤ 12) :
    ((processECGSampleAux f st a t).1).rrHistory.length ≤ 30 ∧
    ((processECGSampleAux f st a t).1).normalTemplates.length ≤ 12 := by
  simp only [processECGSampleAux]
  split_ifs with h1 h2 h3 <;>
    first
      | exact detectBeats_bounds f _ (by simpa using h30) (by simpa using h12)
      | exact ⟨by simpa using h30, by simpa using h12⟩

lemma runSamples_ecgBuffer_length (f : ℚ → ℚ) (st : DetectorState)
    (samples : List (ℚ × ℚ)) (h : st.ecgBuffer.length ≤ 390) :
    (runSamples f st samples).ecgBuffer.length =
      min (st.ecgBuffer.length + samples.length) 390 := by
  induction samples generalizing st with
  | nil =>
    simp only [runSamples, List.foldl_nil, List.length_nil, Nat.add_zero]
    omega
  | cons s tl ih =>
    have hs := processECGSampleAux_ecgBuffer_length f st s.1 s.2
    have hrec := ih ((processECGSampleAux f st s.1 s.2).1) (by rw [hs]; omega)
    simp only [runSamples, List.foldl_cons] at hrec ⊢
    rw [hrec, hs, List.length_cons]
    omega

lemma runSamples_bounds (f : ℚ → ℚ) (st : DetectorState) (samples : List (ℚ × ℚ))
    (h30 : st.rrHistory.length ≤ 30) (h12 : st.normalTemplates.length ≤ 12) :
    (runSamples f st samples).rrHistory.length ≤ 30 ∧
    (runSamples f st samples).normalTemplates.length ≤ 12 := by
  induction samples generalizing st with
  | nil => exact ⟨h30, h12⟩
  | cons s tl ih =>
    simp only [runSamples, List.foldl_cons] at ih ⊢
    have hstep := processECGSampleAux_bounds f st s.1 s.2 h30 h12
    exact ih _ hstep.1 hstep.2

set_option maxRecDepth 8000 in
/-- C6 (code_bug evidence): the sample buffer saturates at 390 entries — a
multiple of the throttle period 10 — after which every single call appends one
sample, truncates back to length 390, sees `length % 10 = 0`, and triggers a
`detectBeats` pass: the pass runs on every sample, not once per 10. -/
theorem detect_pass_every_sample_when_saturated :
    (∀ (sqrtq : ℚ → ℚ) (samplingRate t0 : ℚ) (samples : List (ℚ × ℚ)),
      390 ≤ samples.length →
      (runSamples sqrtq (initState samplingRate t0) samples).ecgBuffer.length = 390) ∧
    (∀ (sqrtq : ℚ → ℚ) (st : DetectorState) (amplitude timestamp : ℚ),
      st.ecgBuffer.length = 390 →
      (processECGSampleAux sqrtq st amplitude timestamp).2 = true) := by
  constructor
  · intro f sr t0 samples h
    rw [runSamples_ecgBuffer_length f (initState sr t0) samples (by simp [initState])]
    simp [initState]
    omega
  · intro f st a t h
    simp only [processECGSampleAux]
    split_ifs with h1 h2 h3 <;> first | rfl | simp_all [jsSliceLast_len] <;> omega

set_option maxRecDepth 8000 in
/-- C6 (witness): after 390 samples the buffer length is exactly 390, and the
very next call (sample 391, consecutive with the pass at sample 390) again
triggers a detection pass. -/
theorem detect_pass_every_sample_when_saturated_witness :
    (runSamples (fun x => x) (initState 130 0)
      (List.replicate 390 ((0 : ℚ), (0 : ℚ)))).ecgBuffer.length = 390 ∧
    (processECGSampleAux (fun x => x)
      (runSamples (fun x => x) (initState 130 0) (List.replicate 390 ((0 : ℚ), (0 : ℚ))))
      0 0).2 = true :=
  ⟨detect_pass_every_sample_when_saturated.1 (fun x => x) 130 0 _ (by simp),
   detect_pass_every_sample_when_saturated.2 (fun x => x) _ 0 0
     (detect_pass_every_sample_when_saturated.1 (fun x => x) 130 0 _ (by simp))⟩

/-- C9: over any input stream, the RR-interval history never exceeds 30 entries
and the normal-template bank never exceeds 12 templates; and whenever a
template is admitted to a full bank of 12, the oldest template is evicted
first (the new bank is the tail of the old one plus the new template). -/
theorem detector_history_bounds_fifo :
    (∀ (sqrtq : ℚ → ℚ) (samplingRate t0 : ℚ) (samples : List (ℚ × ℚ)),
      (runSamples sqrtq (initState samplingRate t0) samples).rrHistory.length ≤ 30 ∧
      (runSamples sqrtq (initState samplingRate t0) samples).normalTemplates.length ≤ 12) ∧
    (∀ (templates : List (List ℚ)) (data : List ℚ) (pi : ℕ),
      templates.length = 12 →
      ((jsSlice data (pi - 60) (pi + 60)).map (fun x => |x|)).max? ≠ some 0 →
      storeNormalTemplate templates data pi =
        templates.tail ++ [(jsSlice data (pi - 60) (pi + 60)).map (fun x =>
          x / (((jsSlice data (pi - 60) (pi + 60)).map (fun y => |y|)).max?.getD 0))]) := by
  constructor
  · intro f sr t0 samples
    exact runSamples_bounds f (initState sr t0) samples (by simp [initState])
      (by simp [initState])
  · intro templates data pi h12 hne
    simp only [storeNormalTemplate]
    rw [if_neg hne, if_pos (by simp [h12])]
    simp only [jsSliceLast, List.length_append, List.length_singleton, h12]
    rw [show 12 + 1 - 12 = 1 by omega,
      List.drop_append_of_le_length (by omega), List.drop_one]

/-- C9 (witness): a one-sample run respects both bounds, and a concrete full
bank of 12 empty templates evicts its head when a new template is stored. -/
theorem detector_history_bounds_fifo_witness :
    ((runSamples (fun x => x) (initState 130 0) [((0 : ℚ), (0 : ℚ))]).rrHistory.length ≤ 30 ∧
      (runSamples (fun x => x) (initState 130 0) [((0 : ℚ), (0 : ℚ))]).normalTemplates.length ≤ 12) ∧
    storeNormalTemplate (List.replicate 12 ([] : List ℚ)) [(1 : ℚ)] 0 =
      List.replicate 11 ([] : List ℚ) ++ [[1]] := by
  constructor
  · exact detector_history_bounds_fifo.1 (fun x => x) 130 0 [((0 : ℚ), (0 : ℚ))]
  · have h := detector_history_bounds_fifo.2 (List.replicate 12 ([] : List ℚ)) [(1 : ℚ)] 0
      (by simp) (by norm_num [jsSlice])
    rw [h]
    norm_num [jsSlice]

/-- C10: every `processECGSample` call returns a result whose `isPVC` field is
`false`, in every detector state — `getResult` hard-codes `isPVC: false`, so
the flag carries no information even when PVC events were just appended. -/
theorem processECGSample_isPVC_always_false (sqrtq : ℚ → ℚ) (st : DetectorState)
    (amplitude timestamp : ℚ) :
    ((processECGSample sqrtq st amplitude timestamp).2).isPVC = false := rfl

end PolarECG
